import Mathlib

/-!
Verification of the webhook tester component
(src/src/components/WebhookTester.tsx) against its specification.

The component is browser UI glue; the parts with checkable behaviour are
the submission handler sendWebhook, the content-type classifier embedded
in it, the filename extraction from the content-disposition header, the
header-map assembly, and the byte-size formatter formatFileSize.  They
are embedded below as pure Lean functions; the platform pieces they call
(fetch, Headers, JSON.parse, TextDecoder) are modelled explicitly where
the modelling choice matters, with a comment at each point.
-/

namespace Webhook

/-- Does the second list start with the first list?  Char-level model of
the JavaScript substring test used below. -/
def leadsWith : List Char → List Char → Bool
  | [], _ => true
  | _ :: _, [] => false
  | p :: ps, c :: cs => p = c && leadsWith ps cs

/-- Does the pattern occur as a contiguous run somewhere in the list? -/
def hasSub (pat : List Char) : List Char → Bool
  | [] => leadsWith pat []
  | c :: cs => leadsWith pat (c :: cs) || hasSub pat cs

/-- Model of JavaScript String.prototype.includes (case-sensitive
substring test), as used for contentType.includes(...) at lines 79-81
of WebhookTester.tsx. -/
def strContains (s pat : String) : Bool := hasSub pat.toList s.toList

/-- Model of a starts-with test on strings.  This follows the wording of
the specification (the content type starts with the application prefix);
the code itself uses strContains.  Kept separate so the two
classification rules can be compared. -/
def specStartsWith (s pat : String) : Bool := leadsWith pat.toList s.toList

/-! ## The content-disposition filename pattern

Line 91 of WebhookTester.tsx runs the regular expression
/filename="?([^"]+)"?/ over the header value and takes capture group 1.
The functions below embed that regex: scan left to right for the first
position where the literal text filename= matches, optionally skip one
double quote, then greedily capture one or more non-quote characters.
If the capture would be empty the match attempt at that position fails
(backtracking over the optional quote cannot help, because the next
character is then a quote or the end) and scanning resumes one character
further right, exactly as the regex engine does. -/

def filenamePat : List Char := "filename=".toList

/-- One match attempt of /filename="?([^"]+)"?/ anchored at the start of
the given character list; returns capture group 1 on success. -/
def captureAt (s : List Char) : Option (List Char) :=
  if leadsWith filenamePat s then
    let rest := s.drop filenamePat.length
    let rest2 := match rest with
      | '"' :: r => r
      | _ => rest
    let cap := rest2.takeWhile (fun c => c ≠ '"')
    if cap.isEmpty then none else some cap
  else none

/-- Left-to-right scan of the unanchored regex search. -/
def scanFilename : List Char → Option (List Char)
  | [] => none
  | c :: cs =>
    match captureAt (c :: cs) with
    | some cap => some cap
    | none => scanFilename cs

/-- disposition.match(/filename="?([^"]+)"?/) with capture group 1,
as a string function. -/
def filenameMatch (s : String) : Option String :=
  (scanFilename s.toList).map (fun l => String.mk l)

/-! ## The headers object

Lines 100-103 build a plain JavaScript object by iterating
res.headers.forEach((value, key) => { headers[key] = value }).
A JavaScript object keeps insertion order and overwrites the value in
place when a key is assigned twice, so it is modelled as an association
list with an update-or-append assignment.  The platform Headers object
yields names already lowercased, so the pairs fed to the fold are taken
to carry the names exactly as forEach yields them. -/

/-- JavaScript object assignment obj[k] = v: update in place if the key
is present, append otherwise. -/
def objSet (m : List (String × String)) (k v : String) : List (String × String) :=
  match m with
  | [] => [(k, v)]
  | (k1, v1) :: rest => if k1 = k then (k1, v) :: rest else (k1, v1) :: objSet rest k v

/-- JavaScript property read obj[k]. -/
def objGet (m : List (String × String)) (k : String) : Option String :=
  (m.find? (fun p => p.1 = k)).map (fun p => p.2)

/-- The headers object assembled at lines 100-103: fold the iterated
header pairs through object assignment. -/
def buildHeaders (hs : List (String × String)) : List (String × String) :=
  hs.foldl (fun m p => objSet m p.1 p.2) []

/-- The value the last pair with the given name assigns, if any -
the last-write-wins reference for the header map. -/
def lastAssigned (hs : List (String × String)) (k : String) : Option String :=
  hs.foldl (fun a p => if p.1 = k then some p.2 else a) none

/-! ## UTF-8

res.text() at line 97 decodes the body bytes with the platform UTF-8
decoder.  The encoder and decoder below embed standard UTF-8 on
codepoints represented as natural numbers; the decoder rejects stray
continuation bytes, truncated sequences, overlong encodings, surrogate
codepoints and values above 0x10FFFF, as the platform decoder does. -/

/-- A Unicode scalar value: below 0x110000 and not a surrogate. -/
def validCp (n : Nat) : Prop := n < 0x110000 ∧ (n < 0xD800 ∨ 0xE000 ≤ n)

instance (n : Nat) : Decidable (validCp n) := by unfold validCp; infer_instance

/-- UTF-8 encoding of one codepoint (1 to 4 bytes). -/
def utf8EncodeCp (n : Nat) : List Nat :=
  if n < 0x80 then [n]
  else if n < 0x800 then [0xC0 + n / 64, 0x80 + n % 64]
  else if n < 0x10000 then [0xE0 + n / 4096, 0x80 + n / 64 % 64, 0x80 + n % 64]
  else [0xF0 + n / 262144, 0x80 + n / 4096 % 64, 0x80 + n / 64 % 64, 0x80 + n % 64]

/-- UTF-8 encoding of a codepoint sequence. -/
def utf8Encode (cs : List Nat) : List Nat := cs.flatMap utf8EncodeCp

/-- Is the byte a UTF-8 continuation byte? -/
def contOk (b : Nat) : Bool := decide (0x80 ≤ b) && decide (b < 0xC0)

mutual

/-- Strict UTF-8 decoding of a byte sequence to a codepoint sequence,
as a streaming state machine: utf8Decode examines a leading byte and
hands the expected number of continuation bytes to utf8DecodeCont, which
accumulates the codepoint and, once complete, checks the lower bound of
the sequence length (rejecting overlong encodings), the 0x110000 upper
bound and the surrogate gap before resuming. -/
def utf8Decode : List Nat → Option (List Nat)
  | [] => some []
  | b0 :: rest =>
    if b0 < 0x80 then (utf8Decode rest).map (fun cs => b0 :: cs)
    else if b0 < 0xC0 then none
    else if b0 < 0xE0 then utf8DecodeCont 1 (b0 - 0xC0) 0x80 rest
    else if b0 < 0xF0 then utf8DecodeCont 2 (b0 - 0xE0) 0x800 rest
    else if b0 < 0xF8 then utf8DecodeCont 3 (b0 - 0xF0) 0x10000 rest
    else none
termination_by bs => (bs.length, 0)

/-- Continuation state of the UTF-8 decoder: k continuation bytes still
expected, the accumulated value so far, and the smallest codepoint the
sequence length may legally encode. -/
def utf8DecodeCont : Nat → Nat → Nat → List Nat → Option (List Nat)
  | 0, acc, lo, bs =>
    if lo ≤ acc ∧ acc < 0x110000 ∧ (acc < 0xD800 ∨ 0xE000 ≤ acc) then
      (utf8Decode bs).map (fun cs => acc :: cs)
    else none
  | _ + 1, _, _, [] => none
  | k + 1, acc, lo, b :: bs =>
    if contOk b then utf8DecodeCont k (acc * 64 + (b - 0x80)) lo bs else none
termination_by k _ _ bs => (bs.length, k + 1)

end

/-- Model of the text the platform hands back from res.text().  On valid
UTF-8 input this is the decoded codepoint sequence; the lossy
replacement-character behaviour of the platform on invalid input is not
modelled (no claim below concerns invalid text payloads). -/
def platformTextOf (bytes : List Nat) : List Nat := (utf8Decode bytes).getD []

/-! ## Data model of the handler -/

/-- A parsed JSON value, standing for whatever res.json() returns. -/
inductive JVal where
  | null : JVal
  | jbool : Bool → JVal
  | jnum : Int → JVal
  | jstr : String → JVal
  | jarr : List JVal → JVal
  | jobj : List (String × JVal) → JVal

/-- The data field of a WebhookResponse: a binary blob, a parsed JSON
value, or decoded text, matching the three branches at lines 86-98. -/
inductive BodyData where
  | blob : List Nat → BodyData
  | jsonVal : JVal → BodyData
  | text : List Nat → BodyData

/-- The WebhookResponse record assembled at lines 105-112. -/
structure WebhookResponse where
  status : Nat
  data : BodyData
  headers : List (String × String)
  isFile : Bool
  fileName : String
  contentType : String

/-- The resolved fetch response as the handler observes it: the status,
the header pairs in the order Headers.forEach yields them (names
lowercased by the platform), the body bytes, and the outcome of the
platform JSON parser on the body (none when JSON.parse would throw).
The JSON parser itself is platform code, outside this repository, so it
is modelled by this field rather than re-implemented. -/
structure FetchResponse where
  status : Nat
  headersList : List (String × String)
  bodyBytes : List Nat
  jsonOutcome : Option JVal

/-- res.headers.get(name): first pair with the given (lowercase) name. -/
def headersGet (hs : List (String × String)) (name : String) : Option String :=
  (hs.find? (fun p => p.1 = name)).map (fun p => p.2)

/-- Outcome of the awaited fetch call: the promise rejects, or resolves
with a response. -/
inductive FetchOutcome where
  | reject : FetchOutcome
  | resolve : FetchResponse → FetchOutcome

/-- One toast notification as issued through useToast. -/
structure Toast where
  title : String
  description : String
  destructive : Bool
deriving DecidableEq

/-- The toast at lines 60-64 (missing URL or file). -/
def validationToast : Toast :=
  { title := "Erro", description := "Por favor, preencha a URL e selecione um arquivo",
    destructive := true }

/-- The toast in the catch block at lines 119-123. -/
def sendFailToast : Toast :=
  { title := "Erro", description := "Falha ao enviar webhook", destructive := true }

/-- The success toast at lines 114-117. -/
def successToast (status : Nat) : Toast :=
  { title := "Sucesso!", description := "Webhook enviado - Status: " ++ toString status,
    destructive := false }

/-- The selected file (the File object: name, size in bytes, MIME type). -/
structure SelectedFile where
  name : String
  size : Nat
  mime : String
deriving DecidableEq

/-- The two reactive fields sendWebhook writes: isLoading and response. -/
structure UIState where
  isLoading : Bool
  response : Option WebhookResponse

/-- Everything one invocation of sendWebhook does, for a given fetch
outcome: whether fetch was called, whether setIsLoading(true) ran, the
toasts issued in order, the argument of setResponse if it ran, and the
final values of the two reactive fields. -/
structure SendOutcome where
  networkCalled : Bool
  enteredLoading : Bool
  toasts : List Toast
  produced : Option WebhookResponse
  final : UIState

/-- Line 78: const contentType = res.headers.get('content-type') || ''.
The JavaScript or-default also maps an empty header value to the empty
string, which getD on the string option reproduces only when absent; an
empty present header is itself the empty string, so the two agree. -/
def respContentType (res : FetchResponse) : String :=
  (headersGet res.headersList "content-type").getD ""

/-- Lines 79-81: the classifier. contentType.includes('application/')
AND NOT includes('json') AND NOT includes('text'). -/
def isBinaryCT (ct : String) : Bool :=
  strContains ct "application/" &&
  !(strContains ct "json") &&
  !(strContains ct "text")

/-- Lines 84-93: the suggested file name stored in the result.  When the
content-disposition header is absent the initial empty string is kept;
when it is present, the regex capture is used, with download as the
fallback when the regex does not match. -/
def extractFileName (res : FetchResponse) : String :=
  match headersGet res.headersList "content-disposition" with
  | some d =>
    match filenameMatch d with
    | some m => m
    | none => "download"
  | none => ""

/-- The submission handler sendWebhook (lines 58-128), as a function of
the inputs it reads (webhookUrl, selectedFile, the prior reactive state)
and of the outcome of the one awaited fetch call. -/
def sendWebhook (webhookUrl : String) (selectedFile : Option SelectedFile)
    (st : UIState) (fetched : FetchOutcome) : SendOutcome :=
  if webhookUrl.isEmpty || selectedFile.isNone then
    { networkCalled := false, enteredLoading := false, toasts := [validationToast],
      produced := none, final := st }
  else
    match fetched with
    | FetchOutcome.reject =>
      { networkCalled := true, enteredLoading := true, toasts := [sendFailToast],
        produced := none, final := { isLoading := false, response := st.response } }
    | FetchOutcome.resolve res =>
      let contentType := respContentType res
      let isFile := isBinaryCT contentType
      if isFile then
        let fileName := extractFileName res
        let result : WebhookResponse :=
          { status := res.status, data := BodyData.blob res.bodyBytes,
            headers := buildHeaders res.headersList, isFile := true,
            fileName := fileName, contentType := contentType }
        { networkCalled := true, enteredLoading := true, toasts := [successToast res.status],
          produced := some result, final := { isLoading := false, response := some result } }
      else if strContains contentType "json" then
        match res.jsonOutcome with
        | none =>
          { networkCalled := true, enteredLoading := true, toasts := [sendFailToast],
            produced := none, final := { isLoading := false, response := st.response } }
        | some v =>
          let result : WebhookResponse :=
            { status := res.status, data := BodyData.jsonVal v,
              headers := buildHeaders res.headersList, isFile := false,
              fileName := "", contentType := contentType }
          { networkCalled := true, enteredLoading := true, toasts := [successToast res.status],
            produced := some result, final := { isLoading := false, response := some result } }
      else
        let result : WebhookResponse :=
          { status := res.status, data := BodyData.text (platformTextOf res.bodyBytes),
            headers := buildHeaders res.headersList, isFile := false,
            fileName := "", contentType := contentType }
        { networkCalled := true, enteredLoading := true, toasts := [successToast res.status],
          produced := some result, final := { isLoading := false, response := some result } }

/-- The file name the download action and the result panel use:
response.fileName || 'download' (lines 135 and 261). -/
def downloadName (r : WebhookResponse) : String :=
  if r.fileName.isEmpty then "download" else r.fileName

/-! ## formatFileSize

Lines 50-56.  The index i = Math.floor(Math.log(bytes) / Math.log(1024))
is the floor of the base-1024 logarithm, i.e. Nat.log 1024 bytes for
bytes at least 1 (the float computation is exact at every input a
browser file size can take in the claims below; the two logarithms
divide to the mathematically exact ratio there).
(bytes / 1024^i).toFixed(2) rounds the exact quotient to hundredths,
half away from zero, and parseFloat followed by string conversion prints
the resulting decimal with trailing zeros trimmed; both are modelled
exactly on the rationals, where all inputs of interest are exact. -/

/-- Hundredths of bytes / d, rounded half up: (bytes / d).toFixed(2) as
an integer count of hundredths. -/
def toFixedHundredths (bytes d : Nat) : Nat := (bytes * 200 + d) / (2 * d)

/-- Print a hundredths count as JavaScript prints the number
parseFloat(x.toFixed(2)): at most two decimals, trailing zeros
trimmed, no decimal point for whole numbers. -/
def trimHundredths (h : Nat) : String :=
  let ip := h / 100
  let fp := h % 100
  if fp = 0 then toString ip
  else if fp % 10 = 0 then toString ip ++ "." ++ toString (fp / 10)
  else toString ip ++ "." ++ (if fp < 10 then "0" else "") ++ toString fp

/-- formatFileSize (lines 50-56).  JavaScript indexing past the end of
the sizes array yields undefined, which string concatenation renders as
the text undefined; getD reproduces that. -/
def formatFileSize (bytes : Nat) : String :=
  if bytes = 0 then "0 Bytes"
  else
    let k := 1024
    let sizes := ["Bytes", "KB", "MB", "GB"]
    let i := Nat.log k bytes
    trimHundredths (toFixedHundredths bytes (k ^ i)) ++ " " ++ sizes.getD i "undefined"

/-- The binary classification rule exactly as the specification words
it: the declared content type STARTS WITH application/ and contains
neither json nor text.  Kept for comparison with the rule the code
implements (isBinaryCT), which tests substring containment, not a
prefix. -/
def claimBinaryRule (ct : String) : Bool :=
  specStartsWith ct "application/" && !(strContains ct "json") && !(strContains ct "text")

/-! ## Concrete fixtures used in witnesses and counterexamples -/

/-- A selected file. -/
def file0 : SelectedFile := { name := "a.txt", size := 3, mime := "text/plain" }

/-- Reactive state before any submission. -/
def st0 : UIState := { isLoading := false, response := none }

/-- A result left displayed by an earlier successful submission. -/
def priorResult : WebhookResponse :=
  { status := 200, data := BodyData.text [104, 105],
    headers := [("content-type", "text/plain")], isFile := false,
    fileName := "", contentType := "text/plain" }

/-- Reactive state while priorResult is displayed. -/
def st1 : UIState := { isLoading := false, response := some priorResult }

/-- A response whose content type contains application/ without starting
with it. -/
def resBinaryOddCT : FetchResponse :=
  { status := 200, headersList := [("content-type", "x-application/octet-stream")],
    bodyBytes := [1, 2, 3], jsonOutcome := none }

/-- A PDF response with a quoted filename in content-disposition. -/
def resPdf : FetchResponse :=
  { status := 200,
    headersList := [("content-type", "application/pdf"),
      ("content-disposition", "attachment; filename=\"report.pdf\"")],
    bodyBytes := [37, 80, 68, 70], jsonOutcome := none }

/-- A PDF response without a content-disposition header. -/
def resPdfNoDisp : FetchResponse :=
  { status := 200, headersList := [("content-type", "application/pdf")],
    bodyBytes := [37], jsonOutcome := none }

/-- A JSON response whose body the platform JSON parser rejects. -/
def resJsonBad : FetchResponse :=
  { status := 200, headersList := [("content-type", "application/json")],
    bodyBytes := [123], jsonOutcome := none }

/-- A response with a duplicated header name. -/
def resDup : FetchResponse :=
  { status := 200,
    headersList := [("x-a", "1"), ("x-a", "2"), ("content-type", "text/plain")],
    bodyBytes := [104], jsonOutcome := none }

/-- A response with no content-type header; the body bytes are the UTF-8
encoding of the codepoints 72 and 233. -/
def resNoCT : FetchResponse :=
  { status := 200, headersList := [], bodyBytes := [72, 195, 169], jsonOutcome := none }

/-- The WebhookResponse record assembled at lines 105-112, given the
classified data, flag and file name. -/
def assembleResult (res : FetchResponse) (data : BodyData) (isFile : Bool)
    (fileName : String) : WebhookResponse :=
  { status := res.status, data := data, headers := buildHeaders res.headersList,
    isFile := isFile, fileName := fileName, contentType := respContentType res }

/-! ## Branch characterizations of sendWebhook

One lemma per control-flow path of the handler; every claim theorem
below is a corollary of these. -/

/-- Missing URL or file: the guard at lines 59-66 fires. -/
theorem sendWebhook_validation_eq (url : String) (file : Option SelectedFile)
    (st : UIState) (fetched : FetchOutcome) (h : (url.isEmpty || file.isNone) = true) :
    sendWebhook url file st fetched =
      { networkCalled := false, enteredLoading := false, toasts := [validationToast],
        produced := none, final := st } := by
  simp [sendWebhook, h]

/-- The fetch promise rejects: the catch block at lines 118-124 runs,
then the finally block clears the loading flag. -/
theorem sendWebhook_reject_eq (url : String) (f : SelectedFile) (st : UIState)
    (h : url.isEmpty = false) :
    sendWebhook url (some f) st FetchOutcome.reject =
      { networkCalled := true, enteredLoading := true, toasts := [sendFailToast],
        produced := none, final := { isLoading := false, response := st.response } } := by
  simp [sendWebhook, h]

/-- Binary classification: the isFile branch at lines 86-93. -/
theorem sendWebhook_binary_eq (url : String) (f : SelectedFile) (st : UIState)
    (res : FetchResponse) (h : url.isEmpty = false)
    (hb : isBinaryCT (respContentType res) = true) :
    sendWebhook url (some f) st (FetchOutcome.resolve res) =
      { networkCalled := true, enteredLoading := true, toasts := [successToast res.status],
        produced := some (assembleResult res (BodyData.blob res.bodyBytes) true (extractFileName res)),
        final := { isLoading := false,
                   response := some (assembleResult res (BodyData.blob res.bodyBytes) true (extractFileName res)) } } := by
  simp [sendWebhook, assembleResult, h, hb]

/-- JSON classification with a parse failure: res.json() throws, the
catch block runs, no result is stored. -/
theorem sendWebhook_json_fail_eq (url : String) (f : SelectedFile) (st : UIState)
    (res : FetchResponse) (h : url.isEmpty = false)
    (hb : isBinaryCT (respContentType res) = false)
    (hj : strContains (respContentType res) "json" = true)
    (ho : res.jsonOutcome = none) :
    sendWebhook url (some f) st (FetchOutcome.resolve res) =
      { networkCalled := true, enteredLoading := true, toasts := [sendFailToast],
        produced := none, final := { isLoading := false, response := st.response } } := by
  simp [sendWebhook, assembleResult, h, hb, hj, ho]

/-- JSON classification with a successful parse. -/
theorem sendWebhook_json_ok_eq (url : String) (f : SelectedFile) (st : UIState)
    (res : FetchResponse) (v : JVal) (h : url.isEmpty = false)
    (hb : isBinaryCT (respContentType res) = false)
    (hj : strContains (respContentType res) "json" = true)
    (ho : res.jsonOutcome = some v) :
    sendWebhook url (some f) st (FetchOutcome.resolve res) =
      { networkCalled := true, enteredLoading := true, toasts := [successToast res.status],
        produced := some (assembleResult res (BodyData.jsonVal v) false ""),
        final := { isLoading := false,
                   response := some (assembleResult res (BodyData.jsonVal v) false "") } } := by
  simp [sendWebhook, assembleResult, h, hb, hj, ho]

/-- Plain-text classification: the final else at lines 96-98. -/
theorem sendWebhook_text_eq (url : String) (f : SelectedFile) (st : UIState)
    (res : FetchResponse) (h : url.isEmpty = false)
    (hb : isBinaryCT (respContentType res) = false)
    (hj : strContains (respContentType res) "json" = false) :
    sendWebhook url (some f) st (FetchOutcome.resolve res) =
      { networkCalled := true, enteredLoading := true, toasts := [successToast res.status],
        produced := some (assembleResult res (BodyData.text (platformTextOf res.bodyBytes)) false ""),
        final := { isLoading := false,
                   response := some (assembleResult res (BodyData.text (platformTextOf res.bodyBytes)) false "") } } := by
  simp [sendWebhook, assembleResult, h, hb, hj]

/-! ## Lemmas on the headers object -/

theorem objGet_cons (k1 v1 : String) (rest : List (String × String)) (q : String) :
    objGet ((k1, v1) :: rest) q = if k1 = q then some v1 else objGet rest q := by
  by_cases h : k1 = q <;> simp [objGet, List.find?_cons, h]

theorem objGet_objSet (m : List (String × String)) (k v q : String) :
    objGet (objSet m k v) q = if q = k then some v else objGet m q := by
  induction m with
  | nil =>
    rw [show objSet [] k v = [(k, v)] from rfl, objGet_cons]
    by_cases hq : q = k
    · subst hq; simp
    · have hk : ¬(k = q) := fun h => hq h.symm
      simp [objGet, hq, hk]
  | cons p rest ih =>
    obtain ⟨k1, v1⟩ := p
    by_cases hk : k1 = k
    · subst hk
      rw [show objSet ((k1, v1) :: rest) k1 v = (k1, v) :: rest from by simp [objSet]]
      rw [objGet_cons, objGet_cons]
      by_cases hq : k1 = q
      · subst hq; simp
      · have hq2 : ¬(q = k1) := fun h => hq h.symm
        simp [hq, hq2]
    · rw [show objSet ((k1, v1) :: rest) k v = (k1, v1) :: objSet rest k v from by
        simp [objSet, hk]]
      rw [objGet_cons, ih, objGet_cons]
      by_cases hq1 : k1 = q
      · subst hq1
        simp [hk]
      · by_cases hq : q = k <;> simp [hq1, hq, hk]

theorem objGet_foldl (hs : List (String × String)) (acc : List (String × String)) (q : String) :
    objGet (hs.foldl (fun m p => objSet m p.1 p.2) acc) q =
      hs.foldl (fun a p => if p.1 = q then some p.2 else a) (objGet acc q) := by
  induction hs generalizing acc with
  | nil => rfl
  | cons p rest ih =>
    rw [List.foldl_cons, List.foldl_cons, ih, objGet_objSet]
    congr 1
    by_cases h : q = p.1
    · subst h; simp
    · have h2 : ¬(p.1 = q) := fun e => h e.symm
      simp [h, h2]

/-- The headers object built at lines 100-103 reads back, at every key,
the value of the last pair carrying that key. -/
theorem objGet_buildHeaders (hs : List (String × String)) (q : String) :
    objGet (buildHeaders hs) q = lastAssigned hs q := by
  rw [buildHeaders, lastAssigned, objGet_foldl]
  rfl

theorem lastAssigned_fold_isSome (hs : List (String × String)) (k : String)
    (acc : Option String)
    (h : (∃ v, (k, v) ∈ hs) ∨ acc.isSome = true) :
    ((hs.foldl (fun a p => if p.1 = k then some p.2 else a) acc).isSome) = true := by
  induction hs generalizing acc with
  | nil =>
    rcases h with ⟨v, hv⟩ | h
    · cases hv
    · exact h
  | cons p rest ih =>
    rw [List.foldl_cons]
    apply ih
    rcases h with ⟨v, hv⟩ | hacc
    · rcases List.mem_cons.mp hv with he | hm
      · right
        rw [← he]
        simp
      · exact Or.inl ⟨v, hm⟩
    · right
      by_cases hp : p.1 = k <;> simp [hp, hacc]

/-- A key that occurs among the iterated pairs has a last assignment. -/
theorem lastAssigned_isSome_of_mem (hs : List (String × String)) (k v : String)
    (hm : (k, v) ∈ hs) : (lastAssigned hs k).isSome = true :=
  lastAssigned_fold_isSome hs k none (Or.inl ⟨v, hm⟩)

/-! ## UTF-8 round trip -/

theorem utf8Decode_one (b0 : Nat) (l : List Nat) (h : b0 < 0x80) :
    utf8Decode (b0 :: l) = (utf8Decode l).map (fun cs => b0 :: cs) := by
  rw [utf8Decode, if_pos h]

theorem utf8Decode_two (b0 b1 : Nat) (l : List Nat)
    (h0 : 0xC0 ≤ b0) (h1 : b0 < 0xE0) (hc : 0x80 ≤ b1 ∧ b1 < 0xC0)
    (hn : 0x80 ≤ (b0 - 0xC0) * 64 + (b1 - 0x80)) :
    utf8Decode (b0 :: b1 :: l) =
      (utf8Decode l).map (fun cs => ((b0 - 0xC0) * 64 + (b1 - 0x80)) :: cs) := by
  have hcb : contOk b1 = true := by
    simp only [contOk, Bool.and_eq_true, decide_eq_true_eq]
    omega
  rw [utf8Decode, if_neg (by omega), if_neg (by omega), if_pos h1]
  rw [utf8DecodeCont, hcb, if_pos rfl]
  rw [utf8DecodeCont, if_pos (by omega)]

theorem utf8Decode_three (b0 b1 b2 : Nat) (l : List Nat)
    (h0 : 0xE0 ≤ b0) (h1 : b0 < 0xF0)
    (hc1 : 0x80 ≤ b1 ∧ b1 < 0xC0) (hc2 : 0x80 ≤ b2 ∧ b2 < 0xC0)
    (hn : 0x800 ≤ (b0 - 0xE0) * 4096 + (b1 - 0x80) * 64 + (b2 - 0x80) ∧
      ((b0 - 0xE0) * 4096 + (b1 - 0x80) * 64 + (b2 - 0x80) < 0xD800 ∨
        0xE000 ≤ (b0 - 0xE0) * 4096 + (b1 - 0x80) * 64 + (b2 - 0x80))) :
    utf8Decode (b0 :: b1 :: b2 :: l) =
      (utf8Decode l).map
        (fun cs => ((b0 - 0xE0) * 4096 + (b1 - 0x80) * 64 + (b2 - 0x80)) :: cs) := by
  have hcb1 : contOk b1 = true := by
    simp only [contOk, Bool.and_eq_true, decide_eq_true_eq]
    omega
  have hcb2 : contOk b2 = true := by
    simp only [contOk, Bool.and_eq_true, decide_eq_true_eq]
    omega
  rw [utf8Decode, if_neg (by omega), if_neg (by omega), if_neg (by omega), if_pos h1]
  rw [utf8DecodeCont, hcb1, if_pos rfl]
  rw [utf8DecodeCont, hcb2, if_pos rfl]
  rw [utf8DecodeCont, if_pos (by omega)]
  have e : ((b0 - 0xE0) * 64 + (b1 - 0x80)) * 64 + (b2 - 0x80) =
      (b0 - 0xE0) * 4096 + (b1 - 0x80) * 64 + (b2 - 0x80) := by omega
  rw [e]

theorem utf8Decode_four (b0 b1 b2 b3 : Nat) (l : List Nat)
    (h0 : 0xF0 ≤ b0) (h1 : b0 < 0xF8)
    (hc1 : 0x80 ≤ b1 ∧ b1 < 0xC0) (hc2 : 0x80 ≤ b2 ∧ b2 < 0xC0)
    (hc3 : 0x80 ≤ b3 ∧ b3 < 0xC0)
    (hn : 0x10000 ≤ (b0 - 0xF0) * 262144 + (b1 - 0x80) * 4096 + (b2 - 0x80) * 64 + (b3 - 0x80) ∧
      (b0 - 0xF0) * 262144 + (b1 - 0x80) * 4096 + (b2 - 0x80) * 64 + (b3 - 0x80) < 0x110000) :
    utf8Decode (b0 :: b1 :: b2 :: b3 :: l) =
      (utf8Decode l).map
        (fun cs =>
          ((b0 - 0xF0) * 262144 + (b1 - 0x80) * 4096 + (b2 - 0x80) * 64 + (b3 - 0x80)) :: cs) := by
  have hcb1 : contOk b1 = true := by
    simp only [contOk, Bool.and_eq_true, decide_eq_true_eq]
    omega
  have hcb2 : contOk b2 = true := by
    simp only [contOk, Bool.and_eq_true, decide_eq_true_eq]
    omega
  have hcb3 : contOk b3 = true := by
    simp only [contOk, Bool.and_eq_true, decide_eq_true_eq]
    omega
  rw [utf8Decode, if_neg (by omega), if_neg (by omega), if_neg (by omega),
    if_neg (by omega), if_pos h1]
  rw [utf8DecodeCont, hcb1, if_pos rfl]
  rw [utf8DecodeCont, hcb2, if_pos rfl]
  rw [utf8DecodeCont, hcb3, if_pos rfl]
  rw [utf8DecodeCont, if_pos (by omega)]
  have e : (((b0 - 0xF0) * 64 + (b1 - 0x80)) * 64 + (b2 - 0x80)) * 64 + (b3 - 0x80) =
      (b0 - 0xF0) * 262144 + (b1 - 0x80) * 4096 + (b2 - 0x80) * 64 + (b3 - 0x80) := by omega
  rw [e]

/-- Decoding the encoding of one valid codepoint, in front of any tail. -/
theorem utf8Decode_encodeCp (n : Nat) (h1 : n < 0x110000)
    (h2 : n < 0xD800 ∨ 0xE000 ≤ n) (l : List Nat) :
    utf8Decode (utf8EncodeCp n ++ l) = (utf8Decode l).map (fun cs => n :: cs) := by
  rcases Nat.lt_or_ge n 0x80 with hA | hA
  · rw [show utf8EncodeCp n = [n] from by simp [utf8EncodeCp, hA],
      List.cons_append, List.nil_append, utf8Decode_one n l hA]
  · rcases Nat.lt_or_ge n 0x800 with hB | hB
    · rw [show utf8EncodeCp n = [0xC0 + n / 64, 0x80 + n % 64] from by
        rw [utf8EncodeCp, if_neg (by omega), if_pos hB]]
      simp only [List.cons_append, List.nil_append]
      rw [utf8Decode_two _ _ _ (by omega) (by omega) (by omega) (by omega)]
      have harith : (0xC0 + n / 64 - 0xC0) * 64 + (0x80 + n % 64 - 0x80) = n := by omega
      rw [harith]
    · rcases Nat.lt_or_ge n 0x10000 with hC | hC
      · rw [show utf8EncodeCp n = [0xE0 + n / 4096, 0x80 + n / 64 % 64, 0x80 + n % 64] from by
          rw [utf8EncodeCp, if_neg (by omega), if_neg (by omega), if_pos hC]]
        simp only [List.cons_append, List.nil_append]
        rw [utf8Decode_three _ _ _ _ (by omega) (by omega) (by omega) (by omega) (by omega)]
        have harith :
            (0xE0 + n / 4096 - 0xE0) * 4096 + (0x80 + n / 64 % 64 - 0x80) * 64 +
              (0x80 + n % 64 - 0x80) = n := by omega
        rw [harith]
      · rw [show utf8EncodeCp n =
            [0xF0 + n / 262144, 0x80 + n / 4096 % 64, 0x80 + n / 64 % 64, 0x80 + n % 64] from by
          rw [utf8EncodeCp, if_neg (by omega), if_neg (by omega), if_neg (by omega)]]
        simp only [List.cons_append, List.nil_append]
        rw [utf8Decode_four _ _ _ _ _ (by omega) (by omega) (by omega) (by omega) (by omega)
          (by omega)]
        have harith :
            (0xF0 + n / 262144 - 0xF0) * 262144 + (0x80 + n / 4096 % 64 - 0x80) * 4096 +
              (0x80 + n / 64 % 64 - 0x80) * 64 + (0x80 + n % 64 - 0x80) = n := by omega
        rw [harith]

/-- Round trip: decoding the UTF-8 encoding of any sequence of valid
codepoints gives the sequence back. -/
theorem utf8Decode_utf8Encode (cs : List Nat) (h : ∀ c ∈ cs, validCp c) :
    utf8Decode (utf8Encode cs) = some cs := by
  induction cs with
  | nil =>
    rw [show utf8Encode [] = [] from rfl, utf8Decode]
  | cons c rest ih =>
    obtain ⟨h1, h2⟩ := h c (List.mem_cons_self c rest)
    have hrest : ∀ x ∈ rest, validCp x := fun x hx => h x (List.mem_cons_of_mem c hx)
    rw [show utf8Encode (c :: rest) = utf8EncodeCp c ++ utf8Encode rest from by
      simp [utf8Encode]]
    rw [utf8Decode_encodeCp c h1 h2, ih hrest]
    rfl

/-- Any produced result comes from one of the three classification
branches, with the corresponding assembled record. -/
theorem produced_cases (url : String) (f : SelectedFile) (st : UIState) (res : FetchResponse)
    (h : url.isEmpty = false) (r : WebhookResponse)
    (hr : (sendWebhook url (some f) st (FetchOutcome.resolve res)).produced = some r) :
    (isBinaryCT (respContentType res) = true ∧
        r = assembleResult res (BodyData.blob res.bodyBytes) true (extractFileName res)) ∨
      (isBinaryCT (respContentType res) = false ∧
        ∃ v, strContains (respContentType res) "json" = true ∧ res.jsonOutcome = some v ∧
          r = assembleResult res (BodyData.jsonVal v) false "") ∨
      (isBinaryCT (respContentType res) = false ∧
        strContains (respContentType res) "json" = false ∧
        r = assembleResult res (BodyData.text (platformTextOf res.bodyBytes)) false "") := by
  cases hb : isBinaryCT (respContentType res) with
  | true =>
    left
    rw [sendWebhook_binary_eq url f st res h hb] at hr
    injection hr with hr2
    exact ⟨rfl, hr2.symm⟩
  | false =>
    right
    cases hj : strContains (respContentType res) "json" with
    | true =>
      left
      cases ho : res.jsonOutcome with
      | none =>
        rw [sendWebhook_json_fail_eq url f st res h hb hj ho] at hr
        exact Option.noConfusion hr
      | some v =>
        rw [sendWebhook_json_ok_eq url f st res v h hb hj ho] at hr
        injection hr with hr2
        exact ⟨rfl, v, rfl, rfl, hr2.symm⟩
    | false =>
      right
      rw [sendWebhook_text_eq url f st res h hb hj] at hr
      injection hr with hr2
      exact ⟨rfl, rfl, hr2.symm⟩

/-- C4: a submission with an empty URL or no selected file issues no
network call, never enters the loading state, reports the validation
toast synchronously, produces no result, and leaves the reactive state
untouched. -/
theorem sendWebhook_validation_guard (url : String) (file : Option SelectedFile)
    (st : UIState) (fetched : FetchOutcome) (h : (url.isEmpty || file.isNone) = true) :
    (sendWebhook url file st fetched).networkCalled = false ∧
      (sendWebhook url file st fetched).enteredLoading = false ∧
      (sendWebhook url file st fetched).toasts = [validationToast] ∧
      (sendWebhook url file st fetched).produced = none ∧
      (sendWebhook url file st fetched).final = st := by
  rw [sendWebhook_validation_eq url file st fetched h]
  exact ⟨rfl, rfl, rfl, rfl, rfl⟩

/-- Witness for C4 at the empty submission. -/
theorem sendWebhook_validation_guard_witness :
    ("".isEmpty || (none : Option SelectedFile).isNone) = true ∧
      ((sendWebhook "" none st0 FetchOutcome.reject).networkCalled = false ∧
        (sendWebhook "" none st0 FetchOutcome.reject).enteredLoading = false ∧
        (sendWebhook "" none st0 FetchOutcome.reject).toasts = [validationToast] ∧
        (sendWebhook "" none st0 FetchOutcome.reject).produced = none ∧
        (sendWebhook "" none st0 FetchOutcome.reject).final = st0) :=
  ⟨rfl, sendWebhook_validation_guard "" none st0 FetchOutcome.reject rfl⟩

/-- C5 counterexample: after a rejected transport call the handler does
not clear the previously displayed result, so a WebhookResult (the
prior one) is still displayed after the failure. -/
theorem sendWebhook_reject_keeps_prior_displayed :
    (sendWebhook "https://example.test" (some file0) st1 FetchOutcome.reject).toasts =
        [sendFailToast] ∧
      (sendWebhook "https://example.test" (some file0) st1 FetchOutcome.reject).final.response =
        some priorResult :=
  ⟨rfl, rfl⟩

/-- C5 (amended): when the transport call rejects, no WebhookResult is
produced, the user is notified generically, and the loading flag is
cleared; the previously displayed result, if any, is left unchanged
rather than cleared. -/
theorem sendWebhook_network_failure (url : String) (f : SelectedFile) (st : UIState)
    (h : url.isEmpty = false) :
    (sendWebhook url (some f) st FetchOutcome.reject).produced = none ∧
      (sendWebhook url (some f) st FetchOutcome.reject).toasts = [sendFailToast] ∧
      (sendWebhook url (some f) st FetchOutcome.reject).final.isLoading = false ∧
      (sendWebhook url (some f) st FetchOutcome.reject).final.response = st.response := by
  rw [sendWebhook_reject_eq url f st h]
  exact ⟨rfl, rfl, rfl, rfl⟩

/-- Witness for C5 (amended). -/
theorem sendWebhook_network_failure_witness :
    "https://example.test".isEmpty = false ∧
      ((sendWebhook "https://example.test" (some file0) st0 FetchOutcome.reject).produced = none ∧
        (sendWebhook "https://example.test" (some file0) st0 FetchOutcome.reject).toasts =
          [sendFailToast] ∧
        (sendWebhook "https://example.test" (some file0) st0 FetchOutcome.reject).final.isLoading =
          false ∧
        (sendWebhook "https://example.test" (some file0) st0 FetchOutcome.reject).final.response =
          st0.response) :=
  ⟨rfl, sendWebhook_network_failure "https://example.test" file0 st0 rfl⟩

/-- C10: every invocation of the handler ends with the loading flag
false (the early validation return leaves the flag as it was, and the
caller only invokes the handler when it is false; every other path runs
the finally block), so a later submission is never blocked. -/
theorem sendWebhook_loading_cleared (url : String) (file : Option SelectedFile)
    (st : UIState) (fetched : FetchOutcome) (h : st.isLoading = false) :
    (sendWebhook url file st fetched).final.isLoading = false := by
  by_cases hv : (url.isEmpty || file.isNone) = true
  · rw [sendWebhook_validation_eq url file st fetched hv]
    exact h
  · have hu : url.isEmpty = false := by
      cases hue : url.isEmpty
      · rfl
      · exact absurd (by rw [hue]; rfl : (url.isEmpty || file.isNone) = true) hv
    cases file with
    | none => exact absurd (by rw [hu]; rfl : (url.isEmpty || (none : Option SelectedFile).isNone) = true) hv
    | some f =>
      cases fetched with
      | reject =>
        rw [sendWebhook_reject_eq url f st hu]
      | resolve res =>
        cases hb : isBinaryCT (respContentType res) with
        | true =>
          rw [sendWebhook_binary_eq url f st res hu hb]
        | false =>
          cases hj : strContains (respContentType res) "json" with
          | true =>
            cases ho : res.jsonOutcome with
            | none => rw [sendWebhook_json_fail_eq url f st res hu hb hj ho]
            | some v => rw [sendWebhook_json_ok_eq url f st res v hu hb hj ho]
          | false =>
            rw [sendWebhook_text_eq url f st res hu hb hj]

/-- Witness for C10. -/
theorem sendWebhook_loading_cleared_witness :
    st0.isLoading = false ∧
      (sendWebhook "" none st0 FetchOutcome.reject).final.isLoading = false :=
  ⟨rfl, sendWebhook_loading_cleared "" none st0 FetchOutcome.reject rfl⟩

/-- C1 counterexample: the code classifies by substring containment, not
by prefix.  At the declared content type x-application/octet-stream the
handler marks the result binary, although the content type does not
start with application/ so the claimed starts-with rule classifies it as
not binary. -/
theorem sendWebhook_binary_not_prefix_rule :
    ((sendWebhook "https://example.test" (some file0) st0
          (FetchOutcome.resolve resBinaryOddCT)).produced.map (fun r => r.isFile)) =
        some true ∧
      claimBinaryRule "x-application/octet-stream" = false :=
  ⟨rfl, rfl⟩

/-- C1 (amended): a result is marked binary exactly when the declared
content type CONTAINS application/ and contains neither json nor text;
in that case the body is stored as the raw blob bytes, never decoded as
text or parsed as JSON. -/
theorem sendWebhook_binary_iff_contains (url : String) (f : SelectedFile) (st : UIState)
    (res : FetchResponse) (h : url.isEmpty = false) :
    (∀ r, (sendWebhook url (some f) st (FetchOutcome.resolve res)).produced = some r →
        r.isFile = isBinaryCT (respContentType res)) ∧
      (isBinaryCT (respContentType res) = true →
        ∃ r, (sendWebhook url (some f) st (FetchOutcome.resolve res)).produced = some r ∧
          r.isFile = true ∧ r.data = BodyData.blob res.bodyBytes) := by
  constructor
  · intro r hr
    rcases produced_cases url f st res h r hr with ⟨hb, rfl⟩ | ⟨hb, v, hj, ho, rfl⟩ | ⟨hb, hj, rfl⟩
    · rw [hb]
      rfl
    · rw [hb]
      rfl
    · rw [hb]
      rfl
  · intro hb
    rw [sendWebhook_binary_eq url f st res h hb]
    exact ⟨_, rfl, rfl, rfl⟩

/-- Witness for C1 (amended) at a PDF response. -/
theorem sendWebhook_binary_iff_contains_witness :
    "https://example.test".isEmpty = false ∧
      ((∀ r, (sendWebhook "https://example.test" (some file0) st0
            (FetchOutcome.resolve resPdf)).produced = some r →
          r.isFile = isBinaryCT (respContentType resPdf)) ∧
        (isBinaryCT (respContentType resPdf) = true →
          ∃ r, (sendWebhook "https://example.test" (some file0) st0
              (FetchOutcome.resolve resPdf)).produced = some r ∧
            r.isFile = true ∧ r.data = BodyData.blob resPdf.bodyBytes)) :=
  ⟨rfl, sendWebhook_binary_iff_contains "https://example.test" file0 st0 resPdf rfl⟩

/-- C2: when the declared content type contains json (which also rules
out the binary branch), the handler parses the body as a structured
value; when the platform parser rejects the body, the error toast is
issued, no WebhookResult is produced and the displayed result is left
unchanged; when it succeeds, the produced result carries the parsed
value. -/
theorem sendWebhook_json_parse (url : String) (f : SelectedFile) (st : UIState)
    (res : FetchResponse) (h : url.isEmpty = false)
    (hj : strContains (respContentType res) "json" = true) :
    (res.jsonOutcome = none →
        (sendWebhook url (some f) st (FetchOutcome.resolve res)).toasts = [sendFailToast] ∧
        (sendWebhook url (some f) st (FetchOutcome.resolve res)).produced = none ∧
        (sendWebhook url (some f) st (FetchOutcome.resolve res)).final.response = st.response) ∧
      (∀ v, res.jsonOutcome = some v →
        ∃ r, (sendWebhook url (some f) st (FetchOutcome.resolve res)).produced = some r ∧
          r.data = BodyData.jsonVal v) := by
  have hb : isBinaryCT (respContentType res) = false := by
    rw [isBinaryCT, hj]
    simp
  constructor
  · intro ho
    rw [sendWebhook_json_fail_eq url f st res h hb hj ho]
    exact ⟨rfl, rfl, rfl⟩
  · intro v ho
    rw [sendWebhook_json_ok_eq url f st res v h hb hj ho]
    exact ⟨_, rfl, rfl⟩

/-- Witness for C2 at a JSON response the parser rejects. -/
theorem sendWebhook_json_parse_witness :
    ("https://example.test".isEmpty = false ∧
        strContains (respContentType resJsonBad) "json" = true) ∧
      ((resJsonBad.jsonOutcome = none →
          (sendWebhook "https://example.test" (some file0) st1
              (FetchOutcome.resolve resJsonBad)).toasts = [sendFailToast] ∧
          (sendWebhook "https://example.test" (some file0) st1
              (FetchOutcome.resolve resJsonBad)).produced = none ∧
          (sendWebhook "https://example.test" (some file0) st1
              (FetchOutcome.resolve resJsonBad)).final.response = st1.response) ∧
        (∀ v, resJsonBad.jsonOutcome = some v →
          ∃ r, (sendWebhook "https://example.test" (some file0) st1
              (FetchOutcome.resolve resJsonBad)).produced = some r ∧
            r.data = BodyData.jsonVal v)) :=
  ⟨⟨rfl, by decide⟩,
    sendWebhook_json_parse "https://example.test" file0 st1 resJsonBad rfl (by decide)⟩

/-- C3: for a binary-classified response the stored file name is the
regex capture of the content-disposition header, quotes optional; the
quoted report.pdf example yields report.pdf, and when the header is
absent the name offered to the user by the download action is the
default download. -/
theorem sendWebhook_filename_suggestion (url : String) (f : SelectedFile) (st : UIState)
    (res : FetchResponse) (h : url.isEmpty = false)
    (hb : isBinaryCT (respContentType res) = true) :
    ∃ r, (sendWebhook url (some f) st (FetchOutcome.resolve res)).produced = some r ∧
      r.fileName = extractFileName res ∧
      (∀ d cap, headersGet res.headersList "content-disposition" = some d →
        filenameMatch d = some cap → r.fileName = cap) ∧
      (headersGet res.headersList "content-disposition" =
          some "attachment; filename=\"report.pdf\"" → r.fileName = "report.pdf") ∧
      (headersGet res.headersList "content-disposition" =
          some "attachment; filename=report.pdf" → r.fileName = "report.pdf") ∧
      (headersGet res.headersList "content-disposition" = none →
        downloadName r = "download") := by
  rw [sendWebhook_binary_eq url f st res h hb]
  refine ⟨_, rfl, rfl, ?_, ?_, ?_, ?_⟩
  · intro d cap hd hm
    show extractFileName res = cap
    rw [extractFileName, hd]
    dsimp only []
    rw [hm]
  · intro hd
    show extractFileName res = "report.pdf"
    rw [extractFileName, hd]
    decide
  · intro hd
    show extractFileName res = "report.pdf"
    rw [extractFileName, hd]
    decide
  · intro hd
    show downloadName (assembleResult res (BodyData.blob res.bodyBytes) true
      (extractFileName res)) = "download"
    rw [downloadName]
    have he : extractFileName res = "" := by rw [extractFileName, hd]
    show (if (extractFileName res).isEmpty then "download" else extractFileName res) = "download"
    rw [he]
    rfl

/-- Witness for C3: the quoted header yields report.pdf, and with the
header absent the download action uses the name download. -/
theorem sendWebhook_filename_suggestion_witness :
    ("https://example.test".isEmpty = false ∧
        isBinaryCT (respContentType resPdf) = true ∧
        isBinaryCT (respContentType resPdfNoDisp) = true) ∧
      ((sendWebhook "https://example.test" (some file0) st0
          (FetchOutcome.resolve resPdf)).produced.map (fun r => r.fileName)) =
        some "report.pdf" ∧
      ((sendWebhook "https://example.test" (some file0) st0
          (FetchOutcome.resolve resPdfNoDisp)).produced.map (fun r => downloadName r)) =
        some "download" := by
  refine ⟨⟨rfl, by decide, by decide⟩, ?_, ?_⟩
  · obtain ⟨r, hr, hfn, hgen, hq, hu, hnone⟩ :=
      sendWebhook_filename_suggestion "https://example.test" file0 st0 resPdf rfl (by decide)
    rw [hr]
    show some r.fileName = some "report.pdf"
    rw [hq rfl]
  · obtain ⟨r, hr, hfn, hgen, hq, hu, hnone⟩ :=
      sendWebhook_filename_suggestion "https://example.test" file0 st0 resPdfNoDisp rfl
        (by decide)
    rw [hr]
    show some (downloadName r) = some "download"
    rw [hnone rfl]

/-- C6: every produced WebhookResult carries the headers object built by
iterating the response header set; each header name that occurs among
the iterated pairs is present in the mapping and reads back the value of
the last pair with that name (last-write-wins; names are already
lowercased by the platform iteration, making lookup case-insensitive). -/
theorem sendWebhook_headers_capture (url : String) (f : SelectedFile) (st : UIState)
    (res : FetchResponse) (h : url.isEmpty = false) :
    ∀ r, (sendWebhook url (some f) st (FetchOutcome.resolve res)).produced = some r →
      r.headers = buildHeaders res.headersList ∧
      ∀ k v, (k, v) ∈ res.headersList →
        objGet r.headers k = lastAssigned res.headersList k ∧
        (lastAssigned res.headersList k).isSome = true := by
  intro r hr
  have hh : r.headers = buildHeaders res.headersList := by
    rcases produced_cases url f st res h r hr with ⟨hb, rfl⟩ | ⟨hb, v, hj, ho, rfl⟩ |
      ⟨hb, hj, rfl⟩ <;> rfl
  refine ⟨hh, fun k v hm => ⟨?_, lastAssigned_isSome_of_mem res.headersList k v hm⟩⟩
  rw [hh, objGet_buildHeaders]

/-- Witness for C6 at a response with a duplicated header name: the
mapping reads back the later value. -/
theorem sendWebhook_headers_capture_witness :
    ("https://example.test".isEmpty = false ∧ ("x-a", "1") ∈ resDup.headersList) ∧
      ((sendWebhook "https://example.test" (some file0) st0
          (FetchOutcome.resolve resDup)).produced.map (fun r => objGet r.headers "x-a")) =
        some (some "2") := by
  refine ⟨⟨rfl, by decide⟩, ?_⟩
  have hp : (sendWebhook "https://example.test" (some file0) st0
      (FetchOutcome.resolve resDup)).produced =
        some (assembleResult resDup (BodyData.text (platformTextOf resDup.bodyBytes))
          false "") := by
    rw [sendWebhook_text_eq "https://example.test" file0 st0 resDup rfl (by decide) (by decide)]
  obtain ⟨hh, hkv⟩ :=
    sendWebhook_headers_capture "https://example.test" file0 st0 resDup rfl _ hp
  obtain ⟨he, _⟩ := hkv "x-a" "1" (by decide)
  rw [hp]
  show some (objGet (assembleResult resDup (BodyData.text (platformTextOf resDup.bodyBytes))
    false "").headers "x-a") = some (some "2")
  rw [show (assembleResult resDup (BodyData.text (platformTextOf resDup.bodyBytes))
    false "").headers = (assembleResult resDup (BodyData.text (platformTextOf resDup.bodyBytes))
    false "").headers from rfl, he]
  decide

/-- C7: when the declared content type is neither binary-classified nor
contains json, the body is read verbatim as text: for a valid UTF-8
payload the produced data is exactly the decoded codepoint sequence, and
re-encoding that sequence yields the original body bytes. -/
theorem sendWebhook_text_roundtrip (url : String) (f : SelectedFile) (st : UIState)
    (res : FetchResponse) (cps : List Nat) (h : url.isEmpty = false)
    (hb : isBinaryCT (respContentType res) = false)
    (hj : strContains (respContentType res) "json" = false)
    (hbytes : res.bodyBytes = utf8Encode cps) (hval : ∀ c ∈ cps, validCp c) :
    utf8Decode res.bodyBytes = some cps ∧
      ∃ r, (sendWebhook url (some f) st (FetchOutcome.resolve res)).produced = some r ∧
        r.data = BodyData.text cps ∧ utf8Encode cps = res.bodyBytes := by
  have hdec : utf8Decode res.bodyBytes = some cps := by
    rw [hbytes]
    exact utf8Decode_utf8Encode cps hval
  refine ⟨hdec, ?_⟩
  rw [sendWebhook_text_eq url f st res h hb hj]
  refine ⟨_, rfl, ?_, hbytes.symm⟩
  show BodyData.text (platformTextOf res.bodyBytes) = BodyData.text cps
  rw [platformTextOf, hdec]
  rfl

/-- Witness for C7 at a body holding the two-codepoint text 72, 233
encoded as the three bytes 72, 195, 169. -/
theorem sendWebhook_text_roundtrip_witness :
    ("https://example.test".isEmpty = false ∧
        isBinaryCT (respContentType resNoCT) = false ∧
        strContains (respContentType resNoCT) "json" = false ∧
        resNoCT.bodyBytes = utf8Encode [72, 233] ∧ (∀ c ∈ [72, 233], validCp c)) ∧
      (utf8Decode resNoCT.bodyBytes = some [72, 233] ∧
        ∃ r, (sendWebhook "https://example.test" (some file0) st0
            (FetchOutcome.resolve resNoCT)).produced = some r ∧
          r.data = BodyData.text [72, 233] ∧ utf8Encode [72, 233] = resNoCT.bodyBytes) :=
  ⟨⟨rfl, by decide, by decide, by decide, by decide⟩,
    sendWebhook_text_roundtrip "https://example.test" file0 st0 resNoCT [72, 233] rfl
      (by decide) (by decide) (by decide) (by decide)⟩

/-- C9: a response without a content-type header is handled with the
empty content type: it is not classified binary, not parsed as JSON, and
its body is read as text. -/
theorem sendWebhook_no_content_type (url : String) (f : SelectedFile) (st : UIState)
    (res : FetchResponse) (h : url.isEmpty = false)
    (hct : headersGet res.headersList "content-type" = none) :
    ∃ r, (sendWebhook url (some f) st (FetchOutcome.resolve res)).produced = some r ∧
      r.contentType = "" ∧ r.isFile = false ∧
      r.data = BodyData.text (platformTextOf res.bodyBytes) := by
  have hct2 : respContentType res = "" := by
    rw [respContentType, hct]
    rfl
  have hb : isBinaryCT (respContentType res) = false := by
    rw [hct2]
    decide
  have hj : strContains (respContentType res) "json" = false := by
    rw [hct2]
    decide
  rw [sendWebhook_text_eq url f st res h hb hj]
  refine ⟨_, rfl, ?_, rfl, rfl⟩
  show respContentType res = ""
  exact hct2

/-- Witness for C9. -/
theorem sendWebhook_no_content_type_witness :
    ("https://example.test".isEmpty = false ∧
        headersGet resNoCT.headersList "content-type" = none) ∧
      (∃ r, (sendWebhook "https://example.test" (some file0) st0
          (FetchOutcome.resolve resNoCT)).produced = some r ∧
        r.contentType = "" ∧ r.isFile = false ∧
        r.data = BodyData.text (platformTextOf resNoCT.bodyBytes)) :=
  ⟨⟨rfl, rfl⟩,
    sendWebhook_no_content_type "https://example.test" file0 st0 resNoCT rfl rfl⟩

/-- C8: the byte-size formatter on the four specified inputs. -/
theorem formatFileSize_examples :
    formatFileSize 0 = "0 Bytes" ∧ formatFileSize 1024 = "1 KB" ∧
      formatFileSize 1536 = "1.5 KB" ∧ formatFileSize 1048576 = "1 MB" := by
  have l1 : Nat.log 1024 1024 = 1 :=
    Nat.log_eq_of_pow_le_of_lt_pow (by norm_num) (by norm_num)
  have l2 : Nat.log 1024 1536 = 1 :=
    Nat.log_eq_of_pow_le_of_lt_pow (by norm_num) (by norm_num)
  have l3 : Nat.log 1024 1048576 = 2 :=
    Nat.log_eq_of_pow_le_of_lt_pow (by norm_num) (by norm_num)
  refine ⟨rfl, ?_, ?_, ?_⟩
  · simp only [formatFileSize, l1]
    decide
  · simp only [formatFileSize, l2]
    decide
  · simp only [formatFileSize, l3]
    decide

end Webhook
